import Mathlib

/-!
Verification of the create/start orchestration pipeline of the portlayer exec
handlers (`apiservers/portlayer/restapi/handlers/exec_handlers.go`).

The Go code is shallowly embedded below.  Collaborator behaviour that lives
outside the handler file (scope lookup, the vSphere session accessors, guest
construction, folder/host lookup, VM creation, power-on, and `net.ParseIP`) is
kept abstract as fields of an `Env` record, so every theorem quantifies over
all collaborator behaviours.  Calls that mutate shared state or reach the
control plane are recorded in an explicit event list, which is how the
"no endpoint is allocated", "no scope mutation", "no create-VM call" parts of
the specification are expressed.  Go runtime panics (nil-pointer dereference,
`rand.Intn(0)`, index out of range) are modelled as a distinguished `crash`
outcome, separate from an error response.
-/

set_option autoImplicit false

namespace VicExec

/-- `net.IPNet`: an address together with a subnet mask.  Addresses and masks
are abstract tokens (`Nat`). -/
structure IPNet where
  ip : Nat
  mask : Nat
  deriving DecidableEq, Repr

/-- Modelled from the spec: a `network.Endpoint` (portlayer/network, not under
src/) as consumed by the handler through the accessors `IP()`, `Subnet()`,
`Gateway()` and `Scope().Name()` (exec_handlers.go lines 123-137). -/
structure Endpoint where
  ip : Nat
  subnet : IPNet
  gateway : Nat
  scopeName : String
  deriving DecidableEq, Repr

/-- Modelled from the spec: a `network.Scope` (portlayer/network, not under
src/).  Per spec section 6 a scope exposes `addContainer(name, ip?)`,
`removeContainer(name)` and accessors for IP/subnet/gateway/name; `pool` is the
list of addresses still available for allocation. -/
structure Scope where
  name : String
  subnet : IPNet
  gateway : Nat
  pool : List Nat
  deriving DecidableEq, Repr

/-- Modelled from the spec: `Scope.AddContainer` (portlayer/network, not under
src/).  Spec section 4.2: the endpoint is allocated from the resolved scope,
optionally pinned to the requested IP, "producing IP, subnet mask, gateway, and
the scope's logical network name"; allocation of a specific static IP must be
exclusive, so a pinned address must still be available in the pool. -/
def Scope.addContainer (s : Scope) (_containerName : String) (ip : Option Nat) :
    Except String Endpoint :=
  match ip with
  | some i =>
    if i ∈ s.pool then .ok ⟨i, s.subnet, s.gateway, s.name⟩
    else .error "ip not available"
  | none =>
    match s.pool with
    | [] => .error "ip pool exhausted"
    | i :: _ => .ok ⟨i, s.subnet, s.gateway, s.name⟩

/-- `models.NetworkConfig`: the network request carried by the create config
(`NetworkName string`, `Address *string`). -/
structure NetworkConfig where
  networkName : String
  address : Option String
  deriving DecidableEq, Repr

/-- `metadata.ContainerNetwork` as populated at lines 128-136. -/
structure ContainerNetwork where
  name : String
  gateway : IPNet
  deriving DecidableEq, Repr

/-- `metadata.NetworkEndpoint` as populated at lines 123-137. -/
structure NetworkEndpoint where
  ip : IPNet
  network : ContainerNetwork
  deriving DecidableEq, Repr

/-- `metadata.Cmd` as populated at lines 166-171. -/
structure Cmd where
  env : List String
  dir : String
  path : String
  args : List String
  deriving DecidableEq, Repr

/-- `metadata.SessionConfig` as populated at lines 179-187 (`Common.ID`
flattened into `id`). -/
structure SessionConfig where
  id : String
  tty : Bool
  attach : Bool
  cmd : Cmd
  deriving DecidableEq, Repr

/-- `metadata.ExecutorConfig` as populated at lines 173-190; the Go maps are
represented as association lists. -/
structure ExecutorConfig where
  id : String
  name : String
  sessions : List (String × SessionConfig)
  networks : List (String × NetworkEndpoint)
  deriving DecidableEq, Repr

/-- `spec.VirtualMachineConfigSpecConfig` as populated at lines 209-230. -/
structure VirtualMachineConfigSpecConfig where
  numCPUs : Nat
  memoryMB : Nat
  connectorURI : String
  id : String
  name : String
  parentImageID : String
  bootMediaPath : String
  vmPathName : String
  networkName : String
  imageStoreName : String
  meta : ExecutorConfig
  deriving DecidableEq, Repr

/-- The pure naming data the handler reads off the shared session:
`session.Datastore.Path`, `session.Datastore.Name()` and
`session.Network.Reference().Value` (lines 223-225). -/
structure Session where
  datastoreName : String
  datastorePath : String → String
  networkRefValue : String

/-- `models.ContainerCreateConfig`: the fields the handler reads.  `path`,
`workingDir` and `image` are pointers in Go (`*string`), hence `Option`. -/
structure CreateConfig where
  path : Option String
  args : List String
  env : List String
  workingDir : Option String
  image : Option String
  imageStoreName : String
  networkSettings : Option NetworkConfig
  deriving DecidableEq, Repr

/-- `exec.ContainerCreateParams`: optional client name plus the create
config. -/
structure CreateParams where
  name : Option String
  createConfig : CreateConfig
  deriving DecidableEq, Repr

/-- Observable calls into collaborators: scope mutation, guest construction,
folder/host lookup, VM creation, VM lookup and power-on. -/
inductive Event where
  | addContainer (scopeName containerName : String)
  | removeContainer (scopeName containerName : String)
  | newLinuxGuest (sp : VirtualMachineConfigSpecConfig)
  | folders
  | attachedClusterHosts
  | createVM (folder : String) (sp : VirtualMachineConfigSpecConfig) (host : String)
  | findVM (id : String)
  | powerOn (ref : String)
  deriving DecidableEq, Repr

/-- Result of the create handler: a success payload carrying the container id,
an error responder (`ContainerCreateNotFound` with a message), or a Go runtime
panic. -/
inductive Outcome where
  | ok (containerID : String)
  | notFound (msg : String)
  | crash (msg : String)
  deriving DecidableEq, Repr

/-- Result of the start handler: `ContainerStartOK` or the error responder. -/
inductive StartOutcome where
  | ok
  | err (msg : String)
  deriving DecidableEq, Repr

/-- The Go triple `(ne *metadata.NetworkEndpoint, s *network.Scope, err
error)` returned by `addContainerToScope`, together with the scope-mutation
events the call performed. -/
structure AttachResult where
  endpoint : Option NetworkEndpoint
  scope : Option Scope
  err : Option String
  events : List Event
  deriving DecidableEq, Repr

/-- Result of `ContainerCreateHandler`: outcome plus the collaborator calls
performed. -/
structure CreateResult where
  outcome : Outcome
  events : List Event
  deriving DecidableEq, Repr

/-- Result of `ContainerStartHandler`. -/
structure StartResult where
  outcome : StartOutcome
  events : List Event
  deriving DecidableEq, Repr

/-- The collaborators of the handler file.  `parseIP` stands for
`net.ParseIP`; `defaultScope` and `scopesLookup` for
`netCtx.DefaultScope()`/`netCtx.Scopes(&name)`; `removeContainerResult` is the
error a `Scope.RemoveContainer` call would return (line 200 discards it);
`newLinuxGuest`, `foldersLookup`, `attachedClusterHosts`, `createVM`, `findVM`
and `powerOn` are the control-plane calls; `intn` is `rand.Intn` restricted to
its in-range results (it panics on 0, which the handler model reproduces);
`genID` and `randomName` are the generated identity values. -/
structure Env where
  parseIP : String → Option Nat
  defaultScope : Scope
  scopesLookup : String → Except String (List Scope)
  removeContainerResult : String → String → Except String Unit
  session : Session
  vchName : String
  newLinuxGuest : VirtualMachineConfigSpecConfig →
    Except String VirtualMachineConfigSpecConfig
  foldersLookup : Except String String
  attachedClusterHosts : Except String (List String)
  intn : Nat → Nat
  createVM : String → VirtualMachineConfigSpecConfig → String → Except String Unit
  findVM : String → Except String String
  powerOn : String → Except String Unit
  genID : String
  randomName : String

/-- Go's `strings.Split(s, sep)` for a one-character separator, over the
character list of the string: accumulator-style splitting on every occurrence
of `sep`. -/
def splitGoAux (sep : Char) (acc : List Char) : List Char → List (List Char)
  | [] => [acc.reverse]
  | c :: cs =>
    if c = sep then acc.reverse :: splitGoAux sep [] cs
    else splitGoAux sep (c :: acc) cs

/-- `strings.Split` on a single-character separator. -/
def splitGo (sep : Char) (s : List Char) : List (List Char) :=
  splitGoAux sep [] s

/-- Lines 123-137: the `metadata.NetworkEndpoint` literal built from the
allocated `network.Endpoint` — both masks are `e.Subnet().Mask`. -/
def toNetworkEndpoint (e : Endpoint) : NetworkEndpoint :=
  { ip := { ip := e.ip, mask := e.subnet.mask }
    network :=
      { name := e.scopeName
        gateway := { ip := e.gateway, mask := e.subnet.mask } } }

/-- Lines 107-115: parse the optional static address; a present address that
does not parse yields the "invalid ip address" error. -/
def resolveStaticIP (env : Env) (addr : Option String) : Except String (Option Nat) :=
  match addr with
  | none => .ok none
  | some a =>
    match env.parseIP a with
    | none => .error "invalid ip address"
    | some i => .ok (some i)

/-- Lines 91-105: the `switch ns.NetworkName` scope resolution.  The default
network resolves to the default scope; otherwise `netCtx.Scopes` is consulted
and the guard `if err != nil || len(scopes) != 1 { return nil, nil, err }`
returns — note that when the lookup succeeded with zero or several matches the
returned `err` is still nil. -/
def resolveScope (env : Env) (networkName : String) : Option Scope × Option String :=
  if networkName = "default" then (some env.defaultScope, none)
  else
    match env.scopesLookup networkName with
    | .error e => (none, some e)
    | .ok scopes =>
      match scopes with
      | [s] => (some s, none)
      | _ => (none, none)

/-- Lines 84-140: `addContainerToScope`. -/
def addContainerToScope (env : Env) (name : String) (ns : Option NetworkConfig) :
    AttachResult :=
  match ns with
  | none => ⟨none, none, none, []⟩
  | some ns =>
    match resolveScope env ns.networkName with
    | (none, e) => ⟨none, none, e, []⟩
    | (some s, _) =>
      match resolveStaticIP env ns.address with
      | .error e => ⟨none, none, some e, []⟩
      | .ok ip =>
        match s.addContainer name ip with
        | .error e => ⟨none, none, some e, [.addContainer s.name name]⟩
        | .ok e =>
          ⟨some (toNetworkEndpoint e), some s, none, [.addContainer s.name name]⟩

/-- Lines 158-163: use the client name when present, otherwise the generated
random name. -/
def resolveName (env : Env) (params : CreateParams) : String :=
  match params.name with
  | none => env.randomName
  | some n => n

/-- Lines 166-171: the `metadata.Cmd` literal; `Args` is the dereferenced path
prepended to the client args. -/
def buildCmd (cfg : CreateConfig) (dir path : String) : Cmd :=
  { env := cfg.env
    dir := dir
    path := path
    args := path :: cfg.args }

/-- Lines 173-190: the `metadata.ExecutorConfig` literal with its single
session entry and an empty network map. -/
def buildMetadata (id name : String) (cmd : Cmd) : ExecutorConfig :=
  { id := id
    name := name
    sessions := [(id, { id := id, tty := false, attach := true, cmd := cmd })]
    networks := [] }

/-- Lines 205-207: `if ne != nil { m.Networks[ne.Network.Name] = *ne }`. -/
def addNetwork (m : ExecutorConfig) (ne : Option NetworkEndpoint) : ExecutorConfig :=
  match ne with
  | none => m
  | some ne => { m with networks := (ne.network.name, ne) :: m.networks }

/-- Lines 209-230: the `spec.VirtualMachineConfigSpecConfig` literal.  The
`netName` argument is the already-split second component of
`session.Network.Reference().Value` (line 225). -/
def buildSpecConfig (env : Env) (id name image netName storeName : String)
    (m : ExecutorConfig) : VirtualMachineConfigSpecConfig :=
  { numCPUs := 2
    memoryMB := 2048
    connectorURI := "tcp://127.0.0.1:2377"
    id := id
    name := name
    parentImageID := image
    bootMediaPath := env.session.datastorePath (env.vchName ++ "/bootstrap.iso")
    vmPathName := "[" ++ env.session.datastoreName ++ "]"
    networkName := netName
    imageStoreName := storeName
    meta := m }

/-- Lines 196-203: the deferred function.  It fires at a return with a non-nil
`err`, and calls `s.RemoveContainer(name)` only when `s != nil`; the return
value of that call is discarded (which is why `Env.removeContainerResult` is
never consulted). -/
def deferRelease (s : Option Scope) (name : String) : List Event :=
  match s with
  | none => []
  | some s => [.removeContainer s.name name]

/-- Lines 233-267: the tail of `ContainerCreateHandler` after the spec config
has been assembled — guest construction, folder lookup, host lookup, random
host pick and the create-VM task.  `rand.Intn(len(hosts))` panics when the
host list is empty, and at that point `err` is nil, so the deferred function
performs no release.  At every error return the deferred function appends the
release events for the attach-time scope. -/
def afterBuild (env : Env) (name : String) (s : Option Scope) (ev1 : List Event)
    (sp : VirtualMachineConfigSpecConfig) : CreateResult :=
  match env.newLinuxGuest sp with
  | .error e =>
    ⟨.notFound ("Error constructing container vm specification: " ++ e),
      ev1 ++ [.newLinuxGuest sp] ++ deferRelease s name⟩
  | .ok linuxSpec =>
    match env.foldersLookup with
    | .error e =>
      ⟨.notFound e, ev1 ++ [.newLinuxGuest sp, .folders] ++ deferRelease s name⟩
    | .ok parent =>
      match env.attachedClusterHosts with
      | .error e =>
        ⟨.notFound e,
          ev1 ++ [.newLinuxGuest sp, .folders, .attachedClusterHosts] ++
            deferRelease s name⟩
      | .ok hosts =>
        match hosts with
        | [] =>
          ⟨.crash "invalid argument to Intn",
            ev1 ++ [.newLinuxGuest sp, .folders, .attachedClusterHosts]⟩
        | h0 :: hs =>
          match (h0 :: hs)[env.intn (h0 :: hs).length]? with
          | none =>
            ⟨.crash "runtime error: index out of range",
              ev1 ++ [.newLinuxGuest sp, .folders, .attachedClusterHosts]⟩
          | some host =>
            match env.createVM parent linuxSpec host with
            | .error e =>
              ⟨.notFound e,
                ev1 ++ [.newLinuxGuest sp, .folders, .attachedClusterHosts,
                  .createVM parent linuxSpec host] ++ deferRelease s name⟩
            | .ok _ =>
              ⟨.ok sp.id,
                ev1 ++ [.newLinuxGuest sp, .folders, .attachedClusterHosts,
                  .createVM parent linuxSpec host]⟩

/-- Lines 143-268: `ContainerCreateHandler`.  The dereferences
`*params.CreateConfig.WorkingDir`, `*params.CreateConfig.Path` (line 168-170)
and `*params.CreateConfig.Image` (line 220) panic when the pointer is nil;
`strings.Split(session.Network.Reference().Value, "-")[1]` (line 225) panics
when the value has no hyphen.  The attach error is never checked after line
195, so the handler proceeds even when `addContainerToScope` failed. -/
def containerCreateHandler (env : Env) (params : CreateParams) : CreateResult :=
  let name := resolveName env params
  let id := env.genID
  match params.createConfig.workingDir, params.createConfig.path with
  | none, _ =>
    ⟨.crash "runtime error: invalid memory address or nil pointer dereference", []⟩
  | some _, none =>
    ⟨.crash "runtime error: invalid memory address or nil pointer dereference", []⟩
  | some dir, some path =>
    let m := buildMetadata id name (buildCmd params.createConfig dir path)
    let ar := addContainerToScope env name params.createConfig.networkSettings
    let m := addNetwork m ar.endpoint
    match params.createConfig.image with
    | none =>
      ⟨.crash "runtime error: invalid memory address or nil pointer dereference",
        ar.events⟩
    | some image =>
      match (splitGo '-' env.session.networkRefValue.data)[1]? with
      | none => ⟨.crash "runtime error: index out of range", ar.events⟩
      | some netName =>
        afterBuild env name ar.scope ar.events
          (buildSpecConfig env id name image (String.mk netName)
            params.createConfig.imageStoreName m)

/-- Lines 271-294: `ContainerStartHandler` — find the VM by id, then power it
on through the task waiter; each failure is returned as the error responder,
with no other calls performed. -/
def containerStartHandler (env : Env) (cid : String) : StartResult :=
  match env.findVM cid with
  | .error e => ⟨.err e, [.findVM cid]⟩
  | .ok ref =>
    match env.powerOn ref with
    | .error e => ⟨.err e, [.findVM cid, .powerOn ref]⟩
    | .ok _ => ⟨.ok, [.findVM cid, .powerOn ref]⟩

/-- The spec config passed to guest construction, if that call happened. -/
def guestSpec? : List Event → Option VirtualMachineConfigSpecConfig
  | [] => none
  | .newLinuxGuest sp :: _ => some sp
  | _ :: evs => guestSpec? evs

/-- Scope mutations: `AddContainer` and `RemoveContainer` calls. -/
def Event.isScopeMutation : Event → Bool
  | .addContainer _ _ => true
  | .removeContainer _ _ => true
  | _ => false

/-- Create-VM control-plane calls. -/
def Event.isCreateVMCall : Event → Bool
  | .createVM _ _ _ => true
  | _ => false

/-! ## Concrete fixtures used to instantiate the theorems -/

/-- A user-defined scope named "blue" with two free addresses. -/
def blueScope : Scope := ⟨"blue", ⟨200, 24⟩, 201, [9, 10]⟩

/-- A concrete session: datastore "ds" and a network reference value with one
hyphen. -/
def baseSession : Session := ⟨"ds", fun p => "[ds] " ++ p, "network-42"⟩

/-- A concrete collaborator environment on which every remote call succeeds;
the scope lookup knows "blue" (one match) and "empty" (zero matches) and fails
on everything else. -/
def baseEnv : Env where
  parseIP := fun a => if a = "10.0.0.5" then some 5 else none
  defaultScope := ⟨"bridge", ⟨100, 16⟩, 101, [7, 8]⟩
  scopesLookup := fun n =>
    if n = "blue" then .ok [blueScope]
    else if n = "empty" then .ok []
    else .error "resource not found"
  removeContainerResult := fun _ _ => .ok ()
  session := baseSession
  vchName := "vch"
  newLinuxGuest := fun sp => .ok sp
  foldersLookup := .ok "vmFolder"
  attachedClusterHosts := .ok ["host1"]
  intn := fun _ => 0
  createVM := fun _ _ _ => .ok ()
  findVM := fun i => if i = "c1" then .ok "vm-1" else .error "vm not found"
  powerOn := fun _ => .ok ()
  genID := "id0"
  randomName := "random0"

/-- A fully-populated create config attaching to the "blue" network. -/
def baseConfig : CreateConfig :=
  ⟨some "/bin/sh", ["-c", "true"], ["A=1"], some "/", some "img1", "store1",
    some ⟨"blue", none⟩⟩

/-- Create params with an explicit client name. -/
def baseParams : CreateParams := ⟨some "c0", baseConfig⟩

/-- The environment whose host lookup returns an empty host set without an
error. -/
def envEmptyHosts : Env := { baseEnv with attachedClusterHosts := .ok [] }

/-- Create params whose required command path is absent (a nil `Path`
pointer). -/
def paramsNoPath : CreateParams := ⟨some "c0", { baseConfig with path := none }⟩

/-- Create params whose image reference is absent (a nil `Image` pointer). -/
def paramsNoImage : CreateParams := ⟨some "c0", { baseConfig with image := none }⟩

/-- A network request naming a network for which the lookup succeeds with zero
matches. -/
def nsZeroMatches : NetworkConfig := ⟨"empty", none⟩

/-- A network request with a malformed static address naming a network for
which the lookup succeeds with zero matches. -/
def nsZeroMatchesBadIP : NetworkConfig := ⟨"empty", some "zzz"⟩

/-- An environment whose guest construction fails. -/
def envGuestFails : Env := { baseEnv with newLinuxGuest := fun _ => .error "boom" }

/-- RemoveContainer (network release) calls. -/
def Event.isRemoveContainerCall : Event → Bool
  | .removeContainer _ _ => true
  | _ => false

/-! ## Helper lemmas -/

theorem splitGoAux_length (sep : Char) (cs : List Char) :
    ∀ acc, (splitGoAux sep acc cs).length = cs.count sep + 1 := by
  induction cs with
  | nil => intro acc; rfl
  | cons c cs ih =>
    intro acc
    by_cases h : c = sep
    · subst h
      simp [splitGoAux, ih, List.count_cons]
    · simp [splitGoAux, h, ih, List.count_cons]

theorem splitGo_length (sep : Char) (cs : List Char) :
    (splitGo sep cs).length = cs.count sep + 1 :=
  splitGoAux_length sep cs []

/-- The second component of a split exists exactly when the separator occurs
in the string. -/
theorem splitGo_second_isSome (sep : Char) (cs : List Char) :
    ((splitGo sep cs)[1]?).isSome ↔ 1 ≤ cs.count sep := by
  constructor
  · intro h
    by_contra hl
    rw [List.getElem?_eq_none (by rw [splitGo_length]; omega)] at h
    simp at h
  · intro h
    rw [List.getElem?_eq_getElem (by rw [splitGo_length]; omega)]
    rfl

theorem guestSpec?_append (l₁ l₂ : List Event) :
    guestSpec? (l₁ ++ l₂) = (guestSpec? l₁).orElse fun _ => guestSpec? l₂ := by
  induction l₁ with
  | nil => rfl
  | cons e l ih => cases e <;> simp [guestSpec?, ih]

theorem guestSpec?_deferRelease (s : Option Scope) (name : String) :
    guestSpec? (deferRelease s name) = none := by
  cases s <;> rfl

/-- `addContainerToScope` performs no guest-construction call. -/
theorem guestSpec?_attach (env : Env) (name : String) (ns : Option NetworkConfig) :
    guestSpec? (addContainerToScope env name ns).events = none := by
  cases ns with
  | none => rfl
  | some ns =>
    unfold addContainerToScope
    rcases hrs : resolveScope env ns.networkName with ⟨s?, e?⟩
    cases s? with
    | none => simp [hrs, guestSpec?]
    | some s =>
      cases hip : resolveStaticIP env ns.address with
      | error e => simp [hrs, hip, guestSpec?]
      | ok ip => cases ha : s.addContainer name ip <;> simp [hrs, hip, ha, guestSpec?]

/-- Shape of a successful spec-modelled allocation: the endpoint carries the
scope's subnet, gateway and name. -/
theorem addContainer_ok_fields (s : Scope) (name : String) (ip : Option Nat)
    (e : Endpoint) (h : s.addContainer name ip = .ok e) :
    e.subnet = s.subnet ∧ e.gateway = s.gateway ∧ e.scopeName = s.name := by
  unfold Scope.addContainer at h
  cases ip with
  | some i =>
    by_cases hi : i ∈ s.pool
    · simp [hi] at h
      cases h
      exact ⟨rfl, rfl, rfl⟩
    · simp [hi] at h
  | none =>
    cases hp : s.pool with
    | nil => rw [hp] at h; cases h
    | cons i rest =>
      rw [hp] at h
      cases h
      exact ⟨rfl, rfl, rfl⟩

/-- Every path through `afterBuild` records the guest-construction call first
among its own events. -/
theorem guestSpec?_afterBuild (env : Env) (name : String) (s : Option Scope)
    (ev1 : List Event) (sp : VirtualMachineConfigSpecConfig)
    (h : guestSpec? ev1 = none) :
    guestSpec? (afterBuild env name s ev1 sp).events = some sp := by
  have hd := guestSpec?_deferRelease s name
  unfold afterBuild
  cases hg : env.newLinuxGuest sp with
  | error e => simp [guestSpec?_append, h, hd, guestSpec?]
  | ok ls =>
    cases hf : env.foldersLookup with
    | error e => simp [guestSpec?_append, h, hd, guestSpec?]
    | ok parent =>
      cases hh : env.attachedClusterHosts with
      | error e => simp [guestSpec?_append, h, hd, guestSpec?]
      | ok hosts =>
        cases hosts with
        | nil => simp [guestSpec?_append, h, guestSpec?]
        | cons h0 hs =>
          cases hidx : (h0 :: hs)[env.intn (hs.length + 1)]? with
          | none => simp [guestSpec?_append, h, guestSpec?, hidx]
          | some host =>
            cases hc : env.createVM parent ls host with
            | error e => simp [guestSpec?_append, h, hd, guestSpec?, hidx, hc]
            | ok u => simp [guestSpec?_append, h, guestSpec?, hidx, hc]

/-- Reduction of the create handler to `afterBuild` when the required fields
are present and the network reference value splits. -/
theorem create_reaches_build (env : Env) (params : CreateParams)
    (dir path img : String) (nn : List Char)
    (hwd : params.createConfig.workingDir = some dir)
    (hp : params.createConfig.path = some path)
    (himg : params.createConfig.image = some img)
    (hnn : (splitGo '-' env.session.networkRefValue.data)[1]? = some nn) :
    containerCreateHandler env params =
      afterBuild env (resolveName env params)
        (addContainerToScope env (resolveName env params)
          params.createConfig.networkSettings).scope
        (addContainerToScope env (resolveName env params)
          params.createConfig.networkSettings).events
        (buildSpecConfig env env.genID (resolveName env params) img (String.mk nn)
          params.createConfig.imageStoreName
          (addNetwork
            (buildMetadata env.genID (resolveName env params)
              (buildCmd params.createConfig dir path))
            (addContainerToScope env (resolveName env params)
              params.createConfig.networkSettings).endpoint)) := by
  unfold containerCreateHandler
  simp only [hwd, hp, himg, hnn]

/-- Whenever `afterBuild` produces the error responder and a scope was
attached, the deferred release on that scope is among the recorded events. -/
theorem afterBuild_release (env : Env) (name : String) (s : Scope)
    (ev1 : List Event) (sp : VirtualMachineConfigSpecConfig) :
    ∀ msg, (afterBuild env name (some s) ev1 sp).outcome = .notFound msg →
      Event.removeContainer s.name name ∈
        (afterBuild env name (some s) ev1 sp).events := by
  unfold afterBuild
  cases hg : env.newLinuxGuest sp with
  | error e => intro msg h; simp [deferRelease]
  | ok ls =>
    cases hf : env.foldersLookup with
    | error e => intro msg h; simp [deferRelease]
    | ok parent =>
      cases hh : env.attachedClusterHosts with
      | error e => intro msg h; simp [deferRelease]
      | ok hosts =>
        cases hosts with
        | nil => intro msg h; simp at h
        | cons h0 hs =>
          cases hidx : (h0 :: hs)[env.intn (hs.length + 1)]? with
          | none => intro msg h; simp [hidx] at h
          | some host =>
            cases hc : env.createVM parent ls host with
            | error e => intro msg h; simp [deferRelease, hidx, hc]
            | ok u => intro msg h; simp [hidx, hc] at h

/-- Recording an endpoint in the metadata leaves the session map unchanged. -/
theorem addNetwork_sessions (m : ExecutorConfig) (ne : Option NetworkEndpoint) :
    (addNetwork m ne).sessions = m.sessions := by
  cases ne <;> rfl

/-- `addContainerToScope` on a uniquely resolved non-default scope with a
successful allocation. -/
theorem attach_single_scope_eq (env : Env) (name : String) (ns : NetworkConfig)
    (s : Scope) (ip : Option Nat) (e : Endpoint)
    (hnd : ns.networkName ≠ "default")
    (hlook : env.scopesLookup ns.networkName = .ok [s])
    (hip : resolveStaticIP env ns.address = .ok ip)
    (hadd : s.addContainer name ip = .ok e) :
    addContainerToScope env name (some ns) =
      ⟨some (toNetworkEndpoint e), some s, none, [.addContainer s.name name]⟩ := by
  simp only [addContainerToScope, resolveScope, if_neg hnd, hlook, hip, hadd]

/-! ## Claim theorems -/

/-- C6: for every attach call with an absent network request, the call returns
no endpoint, no scope handle and no error, and performs no scope mutation
(lines 85-87 return immediately). -/
theorem attach_no_network_request (env : Env) (name : String) :
    addContainerToScope env name none = ⟨none, none, none, []⟩ := rfl

/-- C8: for every start request, the handler performs no scope mutation and no
create-VM call (so no network rollback and no other state mutation — the
container stays as created), and its outcome is exactly the error of the
failing VM lookup or power-on, or success when both succeed. -/
theorem start_failure_frame (env : Env) (cid : String) :
    ((containerStartHandler env cid).events.all fun ev =>
      !ev.isScopeMutation && !ev.isCreateVMCall) = true ∧
    (containerStartHandler env cid).outcome =
      (match env.findVM cid with
       | .error e => .err e
       | .ok ref =>
         match env.powerOn ref with
         | .error e => .err e
         | .ok _ => .ok) := by
  cases hf : env.findVM cid with
  | error e =>
    simp [containerStartHandler, hf, Event.isScopeMutation, Event.isCreateVMCall]
  | ok ref =>
    cases hp : env.powerOn ref with
    | error e =>
      simp [containerStartHandler, hf, hp, Event.isScopeMutation,
        Event.isCreateVMCall]
    | ok u =>
      simp [containerStartHandler, hf, hp, Event.isScopeMutation,
        Event.isCreateVMCall]

/-- C1 counterexample: a request naming a network whose lookup succeeds with
zero matches makes `addContainerToScope` return a nil error (the guard at
lines 99-101 returns the nil `err` of the successful lookup), not a resolution
error; no endpoint and no scope mutation result. -/
theorem scope_zero_matches_no_error :
    addContainerToScope baseEnv "c0" (some nsZeroMatches) =
      ⟨none, none, none, []⟩ := rfl

/-- C1 (amended): on a non-default network name, if the scope lookup itself
fails the call returns that error; if the lookup succeeds with zero or more
than one match the call returns a nil error.  In both cases there is no
endpoint, no scope handle and no scope mutation. -/
theorem attach_non_unique_scope (env : Env) (name : String) (ns : NetworkConfig)
    (errMsg : String) (l : List Scope)
    (hnd : ns.networkName ≠ "default") :
    (env.scopesLookup ns.networkName = .error errMsg →
      addContainerToScope env name (some ns) = ⟨none, none, some errMsg, []⟩) ∧
    (env.scopesLookup ns.networkName = .ok l → l.length ≠ 1 →
      addContainerToScope env name (some ns) = ⟨none, none, none, []⟩) := by
  constructor
  · intro h
    simp only [addContainerToScope, resolveScope, if_neg hnd, h]
  · intro h hl
    simp only [addContainerToScope, resolveScope, if_neg hnd, h]
    cases l with
    | nil => rfl
    | cons a t =>
      cases t with
      | nil => simp at hl
      | cons b r => rfl

/-- Witness for the amended C1: the "missing" network lookup fails and attach
returns exactly that error. -/
theorem attach_non_unique_scope_witness :
    addContainerToScope baseEnv "c0" (some ⟨"missing", none⟩) =
      ⟨none, none, some "resource not found", []⟩ :=
  (attach_non_unique_scope baseEnv "c0" ⟨"missing", none⟩ "resource not found"
    [] (by decide)).1 rfl

/-- C5 counterexample: a request with a malformed static IP on a network that
resolves to zero scopes returns a nil error — the parse at lines 107-115 is
never reached, so no "invalid ip address" validation error is produced. -/
theorem attach_bad_ip_unresolved_scope_no_error :
    addContainerToScope baseEnv "c0" (some nsZeroMatchesBadIP) =
      ⟨none, none, none, []⟩ := rfl

/-- C5 (amended): with a present static address that does not parse, attach
never allocates an endpoint and never mutates a scope; and whenever scope
resolution succeeds first (default network, or a unique lookup match), the
call fails with the "invalid ip address" validation error.  When scope
resolution fails first, the call returns without consulting the address. -/
theorem attach_bad_ip (env : Env) (name : String) (ns : NetworkConfig)
    (a : String) (s : Scope)
    (haddr : ns.address = some a) (hbad : env.parseIP a = none) :
    (addContainerToScope env name (some ns)).endpoint = none ∧
    (addContainerToScope env name (some ns)).events = [] ∧
    (ns.networkName = "default" →
      addContainerToScope env name (some ns) =
        ⟨none, none, some "invalid ip address", []⟩) ∧
    (ns.networkName ≠ "default" → env.scopesLookup ns.networkName = .ok [s] →
      addContainerToScope env name (some ns) =
        ⟨none, none, some "invalid ip address", []⟩) := by
  have hip : resolveStaticIP env ns.address = .error "invalid ip address" := by
    rw [haddr]
    simp only [resolveStaticIP, hbad]
  refine ⟨?_, ?_, ?_, ?_⟩
  · unfold addContainerToScope
    rcases hrs : resolveScope env ns.networkName with ⟨s?, e?⟩
    cases s? with
    | none => simp [hrs]
    | some s' => simp [hrs, hip]
  · unfold addContainerToScope
    rcases hrs : resolveScope env ns.networkName with ⟨s?, e?⟩
    cases s? with
    | none => simp [hrs]
    | some s' => simp [hrs, hip]
  · intro hdef
    simp only [addContainerToScope, resolveScope, if_pos hdef, hip]
  · intro hnd hlook
    simp only [addContainerToScope, resolveScope, if_neg hnd, hlook, hip]

/-- Witness for the amended C5: a malformed static IP on the default network
fails with the validation error before any allocation. -/
theorem attach_bad_ip_witness :
    addContainerToScope baseEnv "c0" (some ⟨"default", some "zzz"⟩) =
      ⟨none, none, some "invalid ip address", []⟩ :=
  (attach_bad_ip baseEnv "c0" ⟨"default", some "zzz"⟩ "zzz" blueScope rfl
    rfl).2.2.1 rfl

/-- C2 (code bug): at a create request whose placement host lookup returns an
empty host set, the handler does not produce a placement error and does not
roll back — `hosts[rand.Intn(len(hosts))]` at line 252 panics on the empty
slice (`rand.Intn(0)` panics), the deferred release does not fire because
`err` is nil at that point, and no create-VM call is issued. -/
theorem create_empty_host_set_crashes :
    (containerCreateHandler envEmptyHosts baseParams).outcome =
        .crash "invalid argument to Intn" ∧
    Event.addContainer "blue" "c0" ∈
      (containerCreateHandler envEmptyHosts baseParams).events ∧
    ((containerCreateHandler envEmptyHosts baseParams).events.all fun ev =>
      !ev.isCreateVMCall && !ev.isRemoveContainerCall) = true := by
  refine ⟨rfl, ?_, rfl⟩
  exact List.mem_cons_self _ _

/-- C4 counterexample: with the command path absent the handler panics with a
nil-pointer dereference at line 169/170 — it does not signal a validation
error to the caller (no external calls are made either). -/
theorem build_missing_path_crashes :
    containerCreateHandler baseEnv paramsNoPath =
      ⟨.crash "runtime error: invalid memory address or nil pointer dereference",
        []⟩ := rfl

/-- C4 (amended): configuration build performs no external calls, and it fails
exactly on a missing required field (working directory, command path, image
reference) or on a session network reference value without a second
hyphen-separated component — but each such failure is a Go runtime panic (nil
pointer dereference / index out of range), not a signalled validation error.
With all required fields present and the reference value splitting, the build
completes and the full spec config reaches guest construction. -/
theorem build_failure_modes (env : Env) (params : CreateParams)
    (dir path img : String) (nn : List Char) :
    (params.createConfig.workingDir = none →
      containerCreateHandler env params =
        ⟨.crash "runtime error: invalid memory address or nil pointer dereference",
          []⟩) ∧
    (params.createConfig.path = none →
      containerCreateHandler env params =
        ⟨.crash "runtime error: invalid memory address or nil pointer dereference",
          []⟩) ∧
    (params.createConfig.workingDir = some dir →
      params.createConfig.path = some path →
      params.createConfig.image = none →
      containerCreateHandler env params =
        ⟨.crash "runtime error: invalid memory address or nil pointer dereference",
          (addContainerToScope env (resolveName env params)
            params.createConfig.networkSettings).events⟩) ∧
    (params.createConfig.workingDir = some dir →
      params.createConfig.path = some path →
      params.createConfig.image = some img →
      (splitGo '-' env.session.networkRefValue.data)[1]? = none →
      containerCreateHandler env params =
        ⟨.crash "runtime error: index out of range",
          (addContainerToScope env (resolveName env params)
            params.createConfig.networkSettings).events⟩) ∧
    (params.createConfig.workingDir = some dir →
      params.createConfig.path = some path →
      params.createConfig.image = some img →
      (splitGo '-' env.session.networkRefValue.data)[1]? = some nn →
      guestSpec? (containerCreateHandler env params).events =
        some (buildSpecConfig env env.genID (resolveName env params) img
          (String.mk nn) params.createConfig.imageStoreName
          (addNetwork
            (buildMetadata env.genID (resolveName env params)
              (buildCmd params.createConfig dir path))
            (addContainerToScope env (resolveName env params)
              params.createConfig.networkSettings).endpoint))) := by
  refine ⟨?_, ?_, ?_, ?_, ?_⟩
  · intro h
    simp [containerCreateHandler, h]
  · intro h
    cases hwd : params.createConfig.workingDir <;>
      simp [containerCreateHandler, h, hwd]
  · intro h1 h2 h3
    simp [containerCreateHandler, h1, h2, h3]
  · intro h1 h2 h3 h4
    simp [containerCreateHandler, h1, h2, h3, h4]
  · intro h1 h2 h3 h4
    rw [create_reaches_build env params dir path img nn h1 h2 h3 h4]
    exact guestSpec?_afterBuild _ _ _ _ _ (guestSpec?_attach _ _ _)

/-- Witness for the amended C4: a concrete request with a nil image pointer
panics after attaching to the "blue" scope, with no guest or create-VM call. -/
theorem build_failure_modes_witness :
    containerCreateHandler baseEnv paramsNoImage =
      ⟨.crash "runtime error: invalid memory address or nil pointer dereference",
        [.addContainer "blue" "c0"]⟩ :=
  (build_failure_modes baseEnv paramsNoImage "/" "/bin/sh" "img1" []).2.2.1
    rfl rfl rfl

/-- C3: for every create request in which a step after a successful endpoint
attachment fails with the error responder (guest construction, folder lookup,
host lookup or the remote create-VM call), the network release
(`RemoveContainer` on the attached scope, via the deferred function at lines
196-203) is among the performed calls, and the release result cannot replace
or suppress the original error: the handler result is identical for every
`removeContainerResult` behaviour, because line 200 discards the return
value. -/
theorem create_release_on_late_failure (env : Env)
    (f : String → String → Except String Unit) (params : CreateParams)
    (ne : NetworkEndpoint) (s : Scope) (e? : Option String) (ev : List Event)
    (msg : String)
    (hatt : addContainerToScope env (resolveName env params)
      params.createConfig.networkSettings = ⟨some ne, some s, e?, ev⟩)
    (hout : (containerCreateHandler env params).outcome = .notFound msg) :
    Event.removeContainer s.name (resolveName env params) ∈
      (containerCreateHandler env params).events ∧
    containerCreateHandler { env with removeContainerResult := f } params =
      containerCreateHandler env params := by
  refine ⟨?_, rfl⟩
  cases hwd : params.createConfig.workingDir with
  | none => simp [containerCreateHandler, hwd] at hout
  | some dir =>
    cases hp : params.createConfig.path with
    | none => simp [containerCreateHandler, hwd, hp] at hout
    | some path =>
      cases himg : params.createConfig.image with
      | none => simp [containerCreateHandler, hwd, hp, himg] at hout
      | some img =>
        cases hnn : (splitGo '-' env.session.networkRefValue.data)[1]? with
        | none => simp [containerCreateHandler, hwd, hp, himg, hnn] at hout
        | some nn =>
          rw [create_reaches_build env params dir path img nn hwd hp himg hnn]
            at hout ⊢
          rw [hatt] at hout ⊢
          exact afterBuild_release _ _ _ _ _ msg hout

/-- Witness for C3: with guest construction failing after attachment to the
"blue" scope, the release is recorded and a failing release leaves the handler
result unchanged. -/
theorem create_release_on_late_failure_witness :
    Event.removeContainer "blue" "c0" ∈
      (containerCreateHandler envGuestFails baseParams).events ∧
    containerCreateHandler
        { envGuestFails with
            removeContainerResult := fun _ _ => .error "release failed" }
        baseParams =
      containerCreateHandler envGuestFails baseParams :=
  create_release_on_late_failure envGuestFails
    (fun _ _ => .error "release failed") baseParams
    ⟨⟨9, 24⟩, ⟨"blue", ⟨201, 24⟩⟩⟩ blueScope none [.addContainer "blue" "c0"]
    "Error constructing container vm specification: boom" rfl rfl

/-- C7: for every attach call on a non-default network that resolves to
exactly one scope and whose allocation succeeds, the returned endpoint's IP
mask and gateway mask both equal the scope's subnet mask, the endpoint carries
the scope's logical network name, and the create handler records the endpoint
in the container metadata under that name. -/
theorem attach_single_scope_endpoint (env : Env) (params : CreateParams)
    (ns : NetworkConfig) (s : Scope) (ip : Option Nat) (e : Endpoint)
    (dir path img : String) (nn : List Char)
    (hns : params.createConfig.networkSettings = some ns)
    (hnd : ns.networkName ≠ "default")
    (hlook : env.scopesLookup ns.networkName = .ok [s])
    (hip : resolveStaticIP env ns.address = .ok ip)
    (hadd : s.addContainer (resolveName env params) ip = .ok e)
    (hwd : params.createConfig.workingDir = some dir)
    (hp : params.createConfig.path = some path)
    (himg : params.createConfig.image = some img)
    (hnn : (splitGo '-' env.session.networkRefValue.data)[1]? = some nn) :
    addContainerToScope env (resolveName env params) (some ns) =
      ⟨some (toNetworkEndpoint e), some s, none,
        [.addContainer s.name (resolveName env params)]⟩ ∧
    (toNetworkEndpoint e).ip.mask = s.subnet.mask ∧
    (toNetworkEndpoint e).network.gateway.mask = s.subnet.mask ∧
    (toNetworkEndpoint e).network.name = s.name ∧
    (guestSpec? (containerCreateHandler env params).events).map
        (fun sp => sp.meta.networks) =
      some [(s.name, toNetworkEndpoint e)] := by
  obtain ⟨hsub, hgw, hsn⟩ :=
    addContainer_ok_fields s (resolveName env params) ip e hadd
  have hatt := attach_single_scope_eq env (resolveName env params) ns s ip e
    hnd hlook hip hadd
  refine ⟨hatt, ?_, ?_, ?_, ?_⟩
  · simp [toNetworkEndpoint, hsub]
  · simp [toNetworkEndpoint, hsub]
  · simp [toNetworkEndpoint, hsn]
  · rw [create_reaches_build env params dir path img nn hwd hp himg hnn,
      guestSpec?_afterBuild _ _ _ _ _ (guestSpec?_attach _ _ _)]
    rw [hns, hatt]
    simp [buildSpecConfig, addNetwork, buildMetadata, toNetworkEndpoint, hsn]

/-- Witness for C7: attaching "c0" to the uniquely resolved "blue" scope. -/
theorem attach_single_scope_endpoint_witness :
    addContainerToScope baseEnv (resolveName baseEnv baseParams)
        (some ⟨"blue", none⟩) =
      ⟨some (toNetworkEndpoint ⟨9, ⟨200, 24⟩, 201, "blue"⟩), some blueScope,
        none, [.addContainer "blue" (resolveName baseEnv baseParams)]⟩ ∧
    (toNetworkEndpoint ⟨9, ⟨200, 24⟩, 201, "blue"⟩).ip.mask =
      blueScope.subnet.mask ∧
    (toNetworkEndpoint ⟨9, ⟨200, 24⟩, 201, "blue"⟩).network.gateway.mask =
      blueScope.subnet.mask ∧
    (toNetworkEndpoint ⟨9, ⟨200, 24⟩, 201, "blue"⟩).network.name =
      blueScope.name ∧
    (guestSpec? (containerCreateHandler baseEnv baseParams).events).map
        (fun sp => sp.meta.networks) =
      some [(blueScope.name, toNetworkEndpoint ⟨9, ⟨200, 24⟩, 201, "blue"⟩)] :=
  attach_single_scope_endpoint baseEnv baseParams ⟨"blue", none⟩ blueScope
    none ⟨9, ⟨200, 24⟩, 201, "blue"⟩ "/" "/bin/sh" "img1" ['4', '2']
    rfl (by decide) rfl rfl rfl rfl rfl rfl rfl

/-- C9: for every create request that reaches configuration build, the command
descriptor embedded in the container metadata has an argument list whose first
element is the command path, followed by the client-supplied arguments in
their original order (line 170). -/
theorem create_cmd_args (env : Env) (params : CreateParams)
    (dir path img : String) (nn : List Char)
    (hwd : params.createConfig.workingDir = some dir)
    (hp : params.createConfig.path = some path)
    (himg : params.createConfig.image = some img)
    (hnn : (splitGo '-' env.session.networkRefValue.data)[1]? = some nn) :
    (guestSpec? (containerCreateHandler env params).events).map
        (fun sp => sp.meta.sessions.map fun p => p.2.cmd.args) =
      some [path :: params.createConfig.args] := by
  rw [create_reaches_build env params dir path img nn hwd hp himg hnn,
    guestSpec?_afterBuild _ _ _ _ _ (guestSpec?_attach _ _ _)]
  simp [buildSpecConfig, addNetwork_sessions, buildMetadata, buildCmd]

/-- Witness for C9: the concrete request embeds args `/bin/sh -c true`. -/
theorem create_cmd_args_witness :
    (guestSpec? (containerCreateHandler baseEnv baseParams).events).map
        (fun sp => sp.meta.sessions.map fun p => p.2.cmd.args) =
      some [["/bin/sh", "-c", "true"]] :=
  create_cmd_args baseEnv baseParams "/" "/bin/sh" "img1" ['4', '2']
    rfl rfl rfl rfl

/-- C10: the destination network identifier is the second hyphen-separated
component of the session network reference value (line 225); that component
exists exactly when the value contains at least one hyphen, the handler panics
with an index-out-of-range when it does not, and when it exists the spec
config passed to guest construction carries exactly that component. -/
theorem create_network_name_derivation (env : Env) (params : CreateParams)
    (dir path img : String)
    (hwd : params.createConfig.workingDir = some dir)
    (hp : params.createConfig.path = some path)
    (himg : params.createConfig.image = some img) :
    (((splitGo '-' env.session.networkRefValue.data)[1]?).isSome ↔
      1 ≤ env.session.networkRefValue.data.count '-') ∧
    ((splitGo '-' env.session.networkRefValue.data)[1]? = none →
      (containerCreateHandler env params).outcome =
        .crash "runtime error: index out of range") ∧
    (guestSpec? (containerCreateHandler env params).events).map
        (fun sp => sp.networkName) =
      ((splitGo '-' env.session.networkRefValue.data)[1]?).map
        (fun part => String.mk part) := by
  refine ⟨splitGo_second_isSome _ _, ?_, ?_⟩
  · intro hnone
    simp [containerCreateHandler, hwd, hp, himg, hnone]
  · cases hnn : (splitGo '-' env.session.networkRefValue.data)[1]? with
    | none =>
      simp [containerCreateHandler, hwd, hp, himg, hnn, guestSpec?_attach]
    | some nn =>
      rw [create_reaches_build env params dir path img nn hwd hp himg hnn,
        guestSpec?_afterBuild _ _ _ _ _ (guestSpec?_attach _ _ _)]
      rfl

/-- Witness for C10: the reference value "network-42" yields network name
"42" in the spec config sent to guest construction. -/
theorem create_network_name_derivation_witness :
    (guestSpec? (containerCreateHandler baseEnv baseParams).events).map
        (fun sp => sp.networkName) = some "42" :=
  (create_network_name_derivation baseEnv baseParams "/" "/bin/sh" "img1"
    rfl rfl rfl).2.2

end VicExec
